import Mathlib

set_option linter.dupNamespace false
set_option maxRecDepth 40000

/-!
Shallow embedding of the ECS core in `ecs.hpp` (namespace `ECS` in the C++
source).  Machine integers (`uint32_t`, `size_t`) are modelled as `Nat`, with
an explicit `% 2^32` where the source can wrap (the `entityCount` counter).
`std::bitset<MAX_COMPONENTS>` signatures are modelled as `Nat` bitmasks.
`std::unordered_map` is modelled as an association list with unique keys;
`std::queue` as a list whose head is the queue front; `std::vector` as a list.
Each C++ `assert` is modelled as an `Except.error` carrying the error kind
named in the specification's error taxonomy.
-/

namespace ECS

def MAX_ENTITIES : Nat := 1028
def MAX_COMPONENTS : Nat := 32

/-- Entity is `std::uint32_t` in the source. -/
abbrev Entity := Nat

/-- ComponentType is `std::uint32_t` in the source. -/
abbrev ComponentType := Nat

/-- Signature is `std::bitset<MAX_COMPONENTS>`, modelled as a `Nat` bitmask. -/
abbrev Signature := Nat

/-- Error kinds of the specification's error taxonomy; each models one of the
source's `assert` messages.  `NullStore` models the undefined behaviour of
dereferencing the default-constructed (null) `shared_ptr` that
`componentArrays[id]` produces for an unregistered component type. -/
inductive ECSError where
  | CapacityExceeded
  | InvalidEntity
  | DuplicateComponent
  | MissingComponent
  | DuplicateRegistration
  | SignatureMismatch
  | NullStore
  deriving DecidableEq, Repr

section MapModel

variable {α : Type} {β : Type} [DecidableEq α]

/-- Model of `std::unordered_map::find` (as a lookup returning the mapped
value when the key is present). -/
def mlookup : List (α × β) → α → Option β
  | [], _ => none
  | (k', v') :: rest, k => if k' = k then some v' else mlookup rest k

/-- Model of `m[k] = v` on `std::unordered_map`: replace the value at an
existing key, or add the binding when the key is absent. -/
def mset : List (α × β) → α → β → List (α × β)
  | [], k, v => [(k, v)]
  | (k', v') :: rest, k, v =>
    if k' = k then (k, v) :: rest else (k', v') :: mset rest k v

/-- Model of `std::unordered_map::erase` (keys are unique, so at most one
binding is removed). -/
def merase : List (α × β) → α → List (α × β)
  | [], _ => []
  | (k', v') :: rest, k => if k' = k then rest else (k', v') :: merase rest k

end MapModel

/-- `signature.set(i, b)` on `std::bitset`: set or clear bit `i`. -/
def sigSet (s : Signature) (i : Nat) (b : Bool) : Signature :=
  if b then s ||| 2 ^ i
  else if s.testBit i then s - 2 ^ i else s

/-!
## EntityManager

`EntityManager` owns the free-id queue, the per-entity signature array and the
live-entity counter (`uint32_t`, so decrement wraps modulo `2^32`).
-/

structure EntityManager where
  freeEntities : List Entity
  entitySignatures : Entity → Signature
  entityCount : Nat

namespace EntityManager

/-- The constructor seeds the free queue with every id in `[0, MAX_ENTITIES)`;
the signature array is value-initialized to all-zero bitsets. -/
def init : EntityManager :=
  { freeEntities := List.range MAX_ENTITIES
    entitySignatures := fun _ => 0
    entityCount := 0 }

/-- `CreateEntity`: asserts `entityCount < MAX_ENTITIES`, pops the queue
front, increments the counter.  `front` on an empty queue is undefined
behaviour in the source; it is unreachable under the size invariant and is
modelled as an error. -/
def CreateEntity (s : EntityManager) : Except ECSError (Entity × EntityManager) :=
  if s.entityCount < MAX_ENTITIES then
    match s.freeEntities with
    | [] => .error .CapacityExceeded
    | id :: rest =>
      .ok (id, { s with freeEntities := rest
                        entityCount := (s.entityCount + 1) % 2 ^ 32 })
  else .error .CapacityExceeded

/-- `DestroyEntity`: the source's assert reads
`assert(entityCount < MAX_ENTITIES && "Entity out of range")`, i.e. it tests
the live-entity counter, not the entity id; this guard is transcribed as-is.
On success it resets the entity's signature, pushes the id onto the queue and
decrements the `uint32_t` counter (wrapping). -/
def DestroyEntity (s : EntityManager) (entity : Entity) : Except ECSError EntityManager :=
  if s.entityCount < MAX_ENTITIES then
    .ok { s with
          entitySignatures := fun e => if e = entity then 0 else s.entitySignatures e
          freeEntities := s.freeEntities ++ [entity]
          entityCount := (s.entityCount + (2 ^ 32 - 1)) % 2 ^ 32 }
  else .error .InvalidEntity

/-- `SetSignature`: asserts `entity < MAX_ENTITIES`, then writes the
signature array at index `entity`. -/
def SetSignature (s : EntityManager) (entity : Entity) (signature : Signature) :
    Except ECSError EntityManager :=
  if entity < MAX_ENTITIES then
    .ok { s with
          entitySignatures := fun e => if e = entity then signature else s.entitySignatures e }
  else .error .InvalidEntity

/-- `GetSignature`: asserts `entity < MAX_ENTITIES`, then reads the signature
array at index `entity`. -/
def GetSignature (s : EntityManager) (entity : Entity) : Except ECSError Signature :=
  if entity < MAX_ENTITIES then .ok (s.entitySignatures entity)
  else .error .InvalidEntity

end EntityManager

/-!
## ComponentArray

`ComponentArray<CompType>` holds a dense `std::array` of components plus the
two `unordered_map`s `entityToIndex` and `indexToEntity`.  The dense array is
modelled as a total function on slot indices (unwritten slots hold the
default value, standing for the indeterminate contents of the C++ array).
-/

structure ComponentArray (γ : Type) where
  components : Nat → γ
  entityToIndex : List (Entity × Nat)
  indexToEntity : List (Nat × Entity)
  componentType : ComponentType
  arraySize : Nat

namespace ComponentArray

variable {γ : Type}

/-- The constructor: empty maps, size zero, the type id recorded from
`GetComponentTypeID<CompType>()`. -/
def init [Inhabited γ] (ct : ComponentType) : ComponentArray γ :=
  { components := fun _ => default
    entityToIndex := []
    indexToEntity := []
    componentType := ct
    arraySize := 0 }

/-- `InsertData`: asserts the entity has no slot yet, then appends the
component at index `arraySize` and records the two-way mapping. -/
def InsertData (a : ComponentArray γ) (entity : Entity) (component : γ) :
    Except ECSError (ComponentArray γ) :=
  match mlookup a.entityToIndex entity with
  | some _ => .error .DuplicateComponent
  | none =>
    let newIndex := a.arraySize
    .ok { a with
          entityToIndex := mset a.entityToIndex entity newIndex
          indexToEntity := mset a.indexToEntity newIndex entity
          components := fun i => if i = newIndex then component else a.components i
          arraySize := a.arraySize + 1 }

/-- Body of `RemoveData` once the entity's slot `removedEntity` (the source's
name for the index) is known.  The source is transcribed line by line:
`components[removedEntity] = components[lastElement]`, then
`indexToEntity[lastElementEntity] = removedEntity` followed by
`indexToEntity[removedEntity] = lastElementEntity` (both writes land in
`indexToEntity`; `entityToIndex` receives no update for the moved entity),
then `entityToIndex.erase(entity)` and `indexToEntity.erase(lastElement)`.
The `indexToEntity[lastElement]` read uses `operator[]`, which
default-constructs `Entity` `0` when the key is absent; since the key
`lastElement` is erased at the end of the function, reading with default `0`
yields the same final state as the insert-then-erase of the default. -/
def removeDataCore (a : ComponentArray γ) (entity : Entity) (removedEntity : Nat) :
    ComponentArray γ :=
  let lastElement := a.arraySize - 1
  let components1 := fun i =>
    if i = removedEntity then a.components lastElement else a.components i
  let lastElementEntity := (mlookup a.indexToEntity lastElement).getD 0
  let i2e1 := mset a.indexToEntity lastElementEntity removedEntity
  let i2e2 := mset i2e1 removedEntity lastElementEntity
  { a with
    components := components1
    entityToIndex := merase a.entityToIndex entity
    indexToEntity := merase i2e2 lastElement
    arraySize := a.arraySize - 1 }

/-- `RemoveData`: asserts the entity has a slot, then runs the swap-remove
body. -/
def RemoveData (a : ComponentArray γ) (entity : Entity) :
    Except ECSError (ComponentArray γ) :=
  match mlookup a.entityToIndex entity with
  | none => .error .MissingComponent
  | some removedEntity => .ok (removeDataCore a entity removedEntity)

/-- `Get`: asserts the entity has a slot, then returns
`components[entityToIndex[entity]]`. -/
def Get (a : ComponentArray γ) (entity : Entity) : Except ECSError γ :=
  match mlookup a.entityToIndex entity with
  | none => .error .MissingComponent
  | some idx => .ok (a.components idx)

/-- `EntityDestroyed`: calls `RemoveData` only when the entity has a slot, so
it never fails. -/
def EntityDestroyed (a : ComponentArray γ) (entity : Entity) : ComponentArray γ :=
  match mlookup a.entityToIndex entity with
  | none => a
  | some removedEntity => removeDataCore a entity removedEntity

end ComponentArray

/-!
## ComponentManager

`ComponentManager` keys type-erased stores by `ComponentType`.  The claims
only need stores of a single payload type, so the erased
`shared_ptr<BaseComponentArray>` map is modelled as a map to
`ComponentArray γ`.
-/

structure ComponentManager (γ : Type) where
  componentArrays : List (ComponentType × ComponentArray γ)

namespace ComponentManager

variable {γ : Type}

def init : ComponentManager γ := { componentArrays := [] }

/-- `RegisterComponent`: the source calls `unordered_map::insert`, which does
nothing when the key is already present (it does not replace the mapped
store). -/
def RegisterComponent [Inhabited γ] (m : ComponentManager γ) (ct : ComponentType) :
    ComponentManager γ :=
  match mlookup m.componentArrays ct with
  | some _ => m
  | none => { componentArrays := m.componentArrays ++ [(ct, ComponentArray.init ct)] }

/-- `GetComponentArray` resolves `componentArrays[componentID]`; for an
unregistered type `operator[]` yields a null `shared_ptr`, and every caller
immediately dereferences it (undefined behaviour), modelled as `NullStore`. -/
def AddComponent (m : ComponentManager γ) (ct : ComponentType) (entity : Entity)
    (component : γ) : Except ECSError (ComponentManager γ) :=
  match mlookup m.componentArrays ct with
  | none => .error .NullStore
  | some arr => do
    let arr2 ← arr.InsertData entity component
    .ok { componentArrays := mset m.componentArrays ct arr2 }

def RemoveComponent (m : ComponentManager γ) (ct : ComponentType) (entity : Entity) :
    Except ECSError (ComponentManager γ) :=
  match mlookup m.componentArrays ct with
  | none => .error .NullStore
  | some arr => do
    let arr2 ← arr.RemoveData entity
    .ok { componentArrays := mset m.componentArrays ct arr2 }

def GetComponent (m : ComponentManager γ) (ct : ComponentType) (entity : Entity) :
    Except ECSError γ :=
  match mlookup m.componentArrays ct with
  | none => .error .NullStore
  | some arr => arr.Get entity

/-- `EntityDestroyed`: forwards to every registered store; each store
self-filters via its own presence check. -/
def EntityDestroyed (m : ComponentManager γ) (entity : Entity) : ComponentManager γ :=
  { componentArrays :=
      m.componentArrays.map (fun p => (p.1, p.2.EntityDestroyed entity)) }

end ComponentManager

/-!
## System and SystemManager

`System` holds a `std::vector<Entity>` of managed entities and a required
signature.  `RemoveEntity` calls `std::remove` on the vector and discards the
returned iterator without calling `erase`, so the vector keeps its length:
the elements not equal to `entity` are shifted to the front and the tail
positions keep their prior values.  `stdRemove` models exactly that. -/

def stdRemove (l : List Entity) (e : Entity) : List Entity :=
  l.filter (fun x => x ≠ e) ++ l.drop (l.filter (fun x => x ≠ e)).length

structure System where
  managedEntities : List Entity
  systemSignature : Signature
  deriving DecidableEq, Repr

namespace System

def init : System := { managedEntities := [], systemSignature := 0 }

/-- `RegisterComponentToSystem`: sets the component's bit in the required
signature. -/
def RegisterComponentToSystem (s : System) (ct : ComponentType) : System :=
  { s with systemSignature := sigSet s.systemSignature ct true }

/-- `RegisterEntityToSystem`: asserts the entity signature equals the
system signature exactly, then appends the entity to the managed list. -/
def RegisterEntityToSystem (s : System) (entity : Entity) (entitySignature : Signature) :
    Except ECSError System :=
  if entitySignature = s.systemSignature then
    .ok { s with managedEntities := s.managedEntities ++ [entity] }
  else .error .SignatureMismatch

/-- `RemoveEntity`: `std::remove` without `erase` (see `stdRemove`). -/
def RemoveEntity (s : System) (entity : Entity) : System :=
  { s with managedEntities := stdRemove s.managedEntities entity }

/-- `CheckEntity`: removes the entity when the signature no longer matches;
on a match it does nothing (in particular it never adds the entity). -/
def CheckEntity (s : System) (entity : Entity) (entitySignature : Signature) : System :=
  if entitySignature ≠ s.systemSignature then s.RemoveEntity entity else s

end System

/-- `SystemManager` holds an `unordered_set<shared_ptr<System>>`; the set is
modelled as a list of system states (iteration order is unspecified in the
source, and every broadcast updates each system independently). -/
structure SystemManager where
  managedSystems : List System
  deriving DecidableEq, Repr

namespace SystemManager

def init : SystemManager := { managedSystems := [] }

/-- `RegisterSystem`: constructs a fresh system and inserts it into the
set. -/
def RegisterSystem (m : SystemManager) : SystemManager :=
  { managedSystems := m.managedSystems ++ [System.init] }

/-- `EntityDestroyed`: calls `RemoveEntity` on every system. -/
def EntityDestroyed (m : SystemManager) (entity : Entity) : SystemManager :=
  { managedSystems := m.managedSystems.map (fun s => s.RemoveEntity entity) }

/-- `EvaluateEntity`: calls `CheckEntity` on every system. -/
def EvaluateEntity (m : SystemManager) (entity : Entity) (entitySignature : Signature) :
    SystemManager :=
  { managedSystems := m.managedSystems.map (fun s => s.CheckEntity entity entitySignature) }

end SystemManager

/-!
## ECS (the Coordinator)
-/

structure ECS (γ : Type) where
  componentManager : ComponentManager γ
  entityManager : EntityManager
  systemManager : SystemManager

namespace ECS

variable {γ : Type}

/-- `Init`: fresh managers. -/
def Init : ECS γ :=
  { componentManager := ComponentManager.init
    entityManager := EntityManager.init
    systemManager := SystemManager.init }

def CreateEntity (e : ECS γ) : Except ECSError (Entity × ECS γ) := do
  let (id, em) ← e.entityManager.CreateEntity
  .ok (id, { e with entityManager := em })

/-- `DestroyEntity`: delegates to the EntityManager, then cascades to the
ComponentManager and the SystemManager. -/
def DestroyEntity (e : ECS γ) (entity : Entity) : Except ECSError (ECS γ) := do
  let em ← e.entityManager.DestroyEntity entity
  .ok { e with
        entityManager := em
        componentManager := e.componentManager.EntityDestroyed entity
        systemManager := e.systemManager.EntityDestroyed entity }

def RegisterComponent [Inhabited γ] (e : ECS γ) (ct : ComponentType) : ECS γ :=
  { e with componentManager := e.componentManager.RegisterComponent ct }

/-- `AddComponent`: inserts into the ComponentManager, then reads the
entity's signature, sets the component's bit and writes it back.  No system
call is made. -/
def AddComponent (e : ECS γ) (ct : ComponentType) (entity : Entity) (component : γ) :
    Except ECSError (ECS γ) := do
  let cm ← e.componentManager.AddComponent ct entity component
  let signature ← e.entityManager.GetSignature entity
  let em ← e.entityManager.SetSignature entity (sigSet signature ct true)
  .ok { e with componentManager := cm, entityManager := em }

def GetComponent (e : ECS γ) (ct : ComponentType) (entity : Entity) : Except ECSError γ :=
  e.componentManager.GetComponent ct entity

def GetEntitySignature (e : ECS γ) (entity : Entity) : Except ECSError Signature :=
  e.entityManager.GetSignature entity

end ECS

/-!
## Auxiliary definitions for the verification

Result projections, operation sequences and concrete scenario states used by
the theorems below.
-/

/-- Projects the success value of a fallible operation. -/
def okOf {γ : Type} : Except ECSError γ → Option γ
  | .ok v => some v
  | .error _ => none

/-- Projects the error of a fallible operation (`none` means it succeeded). -/
def errOf {γ : Type} : Except ECSError γ → Option ECSError
  | .ok _ => none
  | .error err => some err

/-- Folds `InsertData` over a list of entity/value pairs. -/
def insertAll {γ : Type} (a : ComponentArray γ) :
    List (Entity × γ) → Except ECSError (ComponentArray γ)
  | [] => .ok a
  | (e, v) :: rest => do
    let a2 ← a.InsertData e v
    insertAll a2 rest

/-- The components inserted for entities `A = 0`, `B = 1`, `C = 2`, in that
order, into a fresh store. -/
def arrABC : Except ECSError (ComponentArray Nat) :=
  insertAll (ComponentArray.init 0) [(0, 10), (1, 20), (2, 30)]

/-- Runs `CreateEntity` `n` times, discarding the returned ids. -/
def createN : Nat → EntityManager → Except ECSError EntityManager
  | 0, s => .ok s
  | n + 1, s => do
    let (_, s2) ← s.CreateEntity
    createN n s2

/-- The EntityManager reached from a fresh manager by `n` calls to
`CreateEntity` (total, since `n` creates from a fresh manager never fail for
`n ≤ MAX_ENTITIES`; the fallback branch is dead). -/
def emAfterCreates (n : Nat) : EntityManager :=
  match createN n EntityManager.init with
  | .ok s => s
  | .error _ => EntityManager.init

/-- Call sequence for entity-id aliasing: create ids `0` and `1`, destroy the
free id `5` twice (it was never created, so it is free at both calls), drain
the `1026` ids in front of the two queued copies of `5`, then create twice
more and return the two ids handed out. -/
def doubleDestroyChain : Except ECSError (Entity × Entity) := do
  let (_, s1) ← EntityManager.init.CreateEntity
  let (_, s2) ← s1.CreateEntity
  let s3 ← s2.DestroyEntity 5
  let s4 ← s3.DestroyEntity 5
  let s5 ← createN 1026 s4
  let (x, s6) ← s5.CreateEntity
  let (y, _) ← s6.CreateEntity
  .ok (x, y)

/-- Create/destroy operations on the EntityManager. -/
inductive EMOp where
  | create : EMOp
  | destroy : Entity → EMOp

/-- One operation on an EntityManager paired with the (ghost) list of
currently live ids.  A `destroy` of an id that is not live is not a valid
step, which encodes the precondition that destroy is never applied to a
non-live entity; an operation whose internal assert fires is likewise not a
valid step. -/
def stepOp : EMOp → EntityManager × List Entity → Option (EntityManager × List Entity)
  | EMOp.create, (s, live) =>
    match s.CreateEntity with
    | .ok (id, s2) => some (s2, id :: live)
    | .error _ => none
  | EMOp.destroy e, (s, live) =>
    if e ∈ live then
      match s.DestroyEntity e with
      | .ok s2 => some (s2, live.erase e)
      | .error _ => none
    else none

/-- Runs a sequence of create/destroy operations. -/
def run : List EMOp → EntityManager × List Entity → Option (EntityManager × List Entity)
  | [], cfg => some cfg
  | op :: ops, cfg =>
    match stepOp op cfg with
    | some cfg2 => run ops cfg2
    | none => none

/-- Invariant tying an EntityManager to its ghost live list: the live ids and
the free queue together hold each id in `[0, MAX_ENTITIES)` exactly once, the
live counter equals the number of live ids, and every non-live id's signature
is zero. -/
def EMInv (cfg : EntityManager × List Entity) : Prop :=
  List.Perm (cfg.2 ++ cfg.1.freeEntities) (List.range MAX_ENTITIES) ∧
  cfg.1.entityCount = cfg.2.length ∧
  ∀ e, e ∉ cfg.2 → cfg.1.entitySignatures e = 0

/-- Configuration reached by creating one entity (id `0`) and destroying it
again. -/
def c7cfg : EntityManager × List Entity :=
  (run [EMOp.create, EMOp.destroy 0] (EntityManager.init, [])).getD (EntityManager.init, [])

/-- A ComponentManager with component type `0` registered and the value `7`
stored for entity `0` (the fallback branch is dead: the insert succeeds). -/
def cmWithData : ComponentManager Nat :=
  match (ComponentManager.init.RegisterComponent 0).AddComponent 0 0 7 with
  | .ok m => m
  | .error _ => ComponentManager.init

/-- A system requiring component types `0` and `1` (signature `3`) with
entity `0` registered, as the demo wires a system by hand. -/
def demoSystem : Except ECSError System :=
  ((System.init.RegisterComponentToSystem 0).RegisterComponentToSystem 1).RegisterEntityToSystem 0 3

/-- Coordinator state for the cascade scenario: entity `0` holds components
of types `0` and `1` (signature `3`) and is registered in one system
requiring exactly that signature.  The system lives in the SystemManager's
set, as `SystemManager::RegisterSystem` plus `require`/`register_entity`
calls through the returned shared pointer would leave it. -/
def c2State : Except ECSError (ECS Nat) := do
  let (ent, e1) ← (ECS.Init : ECS Nat).CreateEntity
  let e2 := (e1.RegisterComponent 0).RegisterComponent 1
  let e3 ← e2.AddComponent 0 ent 7
  let e4 ← e3.AddComponent 1 ent 8
  let sys ← demoSystem
  .ok { e4 with systemManager := { managedSystems := [sys] } }

/-- Coordinator state with component type `0` registered and entity `0`
created, holding no components yet. -/
def ecs0 : ECS Nat :=
  match ((ECS.Init : ECS Nat).RegisterComponent 0).CreateEntity with
  | .ok (_, st) => st
  | .error _ => ECS.Init

/-!
## Helper lemmas
-/

section MapLemmas

variable {α : Type} {β : Type} [DecidableEq α]

theorem mlookup_mset_self (m : List (α × β)) (k : α) (v : β) :
    mlookup (mset m k v) k = some v := by
  induction m with
  | nil => simp [mset, mlookup]
  | cons hd tl ih =>
    obtain ⟨k0, v0⟩ := hd
    by_cases h : k0 = k
    · simp [mset, h, mlookup]
    · simp [mset, h, mlookup, ih]

theorem mlookup_mset_ne (m : List (α × β)) (k k2 : α) (v : β) (h : k ≠ k2) :
    mlookup (mset m k v) k2 = mlookup m k2 := by
  induction m with
  | nil => simp [mset, mlookup, h]
  | cons hd tl ih =>
    obtain ⟨k0, v0⟩ := hd
    by_cases h0 : k0 = k
    · subst h0
      simp [mset, mlookup, h, ih]
    · simp [mset, h0, mlookup, ih]

end MapLemmas

theorem stdRemove_length (l : List Entity) (e : Entity) :
    (stdRemove l e).length = l.length := by
  unfold stdRemove
  rw [List.length_append, List.length_drop]
  have hle : (l.filter (fun x => x ≠ e)).length ≤ l.length := List.length_filter_le _ _
  omega

theorem CreateEntity_ok (s : EntityManager) (id : Entity) (s2 : EntityManager)
    (h : s.CreateEntity = .ok (id, s2)) :
    s.entityCount < MAX_ENTITIES ∧ s.freeEntities = id :: s2.freeEntities ∧
    s2.entityCount = (s.entityCount + 1) % 2 ^ 32 ∧
    s2.entitySignatures = s.entitySignatures := by
  unfold EntityManager.CreateEntity at h
  by_cases hc : s.entityCount < MAX_ENTITIES
  · rw [if_pos hc] at h
    cases hfree : s.freeEntities with
    | nil => rw [hfree] at h; simp at h
    | cons a rest =>
      rw [hfree] at h
      simp only [Except.ok.injEq, Prod.mk.injEq] at h
      obtain ⟨h1, h2⟩ := h
      subst h1
      subst h2
      exact ⟨hc, by simp [hfree], rfl, rfl⟩
  · rw [if_neg hc] at h; simp at h

theorem DestroyEntity_ok (s : EntityManager) (e : Entity) (s2 : EntityManager)
    (h : s.DestroyEntity e = .ok s2) :
    s.entityCount < MAX_ENTITIES ∧
    s2.freeEntities = s.freeEntities ++ [e] ∧
    s2.entityCount = (s.entityCount + (2 ^ 32 - 1)) % 2 ^ 32 ∧
    s2.entitySignatures = fun x => if x = e then 0 else s.entitySignatures x := by
  unfold EntityManager.DestroyEntity at h
  by_cases hc : s.entityCount < MAX_ENTITIES
  · rw [if_pos hc] at h
    simp only [Except.ok.injEq] at h
    rw [← h]
    exact ⟨hc, rfl, rfl, rfl⟩
  · rw [if_neg hc] at h; simp at h

theorem emInv_init : EMInv (EntityManager.init, []) :=
  ⟨by simp [EntityManager.init], rfl, fun _ _ => rfl⟩

theorem emInv_step (op : EMOp) (cfg cfg2 : EntityManager × List Entity)
    (hInv : EMInv cfg) (hstep : stepOp op cfg = some cfg2) : EMInv cfg2 := by
  obtain ⟨s, live⟩ := cfg
  obtain ⟨hperm, hcount, hsig⟩ := hInv
  cases op with
  | create =>
    simp only [stepOp] at hstep
    cases hC : s.CreateEntity with
    | error err => rw [hC] at hstep; simp at hstep
    | ok p =>
      obtain ⟨id, s2⟩ := p
      rw [hC] at hstep
      simp only [Option.some.injEq] at hstep
      obtain ⟨hlt, hfree, hcnt, hsigs⟩ := CreateEntity_ok s id s2 hC
      subst hstep
      dsimp only at hperm hcount hsig
      refine ⟨?_, ?_, ?_⟩
      · show List.Perm ((id :: live) ++ s2.freeEntities) (List.range MAX_ENTITIES)
        have h1 : List.Perm (live ++ id :: s2.freeEntities) (List.range MAX_ENTITIES) := by
          rw [← hfree]; exact hperm
        have h2 : List.Perm (live ++ id :: s2.freeEntities) (id :: (live ++ s2.freeEntities)) :=
          List.perm_middle
        have h3 : List.Perm (id :: (live ++ s2.freeEntities)) (List.range MAX_ENTITIES) :=
          h2.symm.trans h1
        simpa only [List.cons_append] using h3
      · show s2.entityCount = (id :: live).length
        have hb : s.entityCount + 1 < 2 ^ 32 := by
          unfold MAX_ENTITIES at hlt
          omega
        rw [hcnt, Nat.mod_eq_of_lt hb, hcount, List.length_cons]
      · intro e he
        show s2.entitySignatures e = 0
        rw [hsigs]
        exact hsig e (fun hmem => he (List.mem_cons_of_mem id hmem))
  | destroy e =>
    simp only [stepOp] at hstep
    by_cases he : e ∈ live
    · rw [if_pos he] at hstep
      cases hD : s.DestroyEntity e with
      | error err => rw [hD] at hstep; simp at hstep
      | ok s2 =>
        rw [hD] at hstep
        simp only [Option.some.injEq] at hstep
        obtain ⟨hlt, hfree, hcnt, hsigs⟩ := DestroyEntity_ok s e s2 hD
        subst hstep
        dsimp only at hperm hcount hsig
        have hlen : 1 ≤ live.length := List.length_pos.mpr (List.ne_nil_of_mem he)
        refine ⟨?_, ?_, ?_⟩
        · show List.Perm (live.erase e ++ s2.freeEntities) (List.range MAX_ENTITIES)
          have h1 : List.Perm ((live.erase e ++ s.freeEntities) ++ [e])
              (e :: (live.erase e ++ s.freeEntities)) := List.perm_append_singleton _ _
          have h2 : List.Perm ((e :: live.erase e) ++ s.freeEntities) (live ++ s.freeEntities) :=
            List.Perm.append_right _ (List.perm_cons_erase he).symm
          have h3 : List.Perm ((live.erase e ++ s.freeEntities) ++ [e])
              (List.range MAX_ENTITIES) :=
            (h1.trans h2).trans hperm
          rw [hfree, ← List.append_assoc]
          exact h3
        · show s2.entityCount = (live.erase e).length
          have hmod : (s.entityCount + (2 ^ 32 - 1)) % 2 ^ 32 = s.entityCount - 1 := by
            have h1 : s.entityCount + (2 ^ 32 - 1) = (s.entityCount - 1) + 2 ^ 32 := by
              have : 1 ≤ s.entityCount := by rw [hcount]; exact hlen
              omega
            have h2 : s.entityCount - 1 < 2 ^ 32 := by
              unfold MAX_ENTITIES at hlt; omega
            rw [h1, Nat.add_mod_right, Nat.mod_eq_of_lt h2]
          rw [hcnt, hmod, hcount, List.length_erase_of_mem he]
        · intro x hx
          show s2.entitySignatures x = 0
          rw [hsigs]
          by_cases hxe : x = e
          · simp [hxe]
          · simp only [if_neg hxe]
            refine hsig x (fun hmem => hx ?_)
            exact (List.mem_erase_of_ne hxe).mpr hmem
    · rw [if_neg he] at hstep; simp at hstep

theorem emInv_run (ops : List EMOp) :
    ∀ cfg cfg2, EMInv cfg → run ops cfg = some cfg2 → EMInv cfg2 := by
  induction ops with
  | nil =>
    intro cfg cfg2 h hr
    simp only [run, Option.some.injEq] at hr
    rw [← hr]; exact h
  | cons op ops ih =>
    intro cfg cfg2 h hr
    simp only [run] at hr
    cases hs : stepOp op cfg with
    | none => rw [hs] at hr; simp at hr
    | some cfg1 =>
      rw [hs] at hr
      exact ih cfg1 cfg2 (emInv_step op cfg cfg1 h hs) hr

/-!
## Claim theorems
-/

/-- C1: the claim states that after inserting components for entities
`A = 0`, `B = 1`, `C = 2` in that order and removing B's component, C is
retrievable at B's old slot (slot `1`) via the updated slot mapping, A is
unaffected, and `get(B)` fails with `MissingComponent`.  The code disagrees
on the slot mapping: before the removal B sits at slot `1`, but after it
`entityToIndex` still maps C to slot `2` (the moved-entity update in
`RemoveData` writes into `indexToEntity` instead of `entityToIndex`, even
though the function's own comments say both maps are updated to reflect the
shuffle).  `get(C)` still returns `30` only because the stale slot `2` —
outside the dense range `[0, 2)` — has not yet been overwritten; A is
unaffected and `get(B)` fails as claimed. -/
theorem removeData_slot_mapping_stale :
    (do
      let a ← arrABC
      let a2 ← a.RemoveData 1
      .ok (mlookup a.entityToIndex 1, mlookup a2.entityToIndex 2,
           okOf (a2.Get 0), errOf (a2.Get 1), okOf (a2.Get 2))) =
    .ok ((some 1 : Option Nat), (some 2 : Option Nat),
         (some 10 : Option Nat), some ECSError.MissingComponent, (some 30 : Option Nat)) := by
  rfl

/-- C2: the claim states that destroying an entity removes it from every
system's managed set and from every ComponentStore, and that a later
`get_component` fails with `MissingComponent`.  The store half holds, but the
system half fails: `System::RemoveEntity` calls `std::remove` and discards
its result without calling `erase`, so the vector keeps its length.  For a
system whose managed list is exactly `[0]`, destroying entity `0` leaves the
list equal to `[0]`. -/
theorem destroyEntity_leaves_system_membership :
    (do
      let st ← c2State
      let st2 ← st.DestroyEntity 0
      .ok (st2.systemManager.managedSystems.map System.managedEntities,
           errOf (st2.GetComponent 0 0), errOf (st2.GetComponent 1 0))) =
    .ok ([[0]], some ECSError.MissingComponent, some ECSError.MissingComponent) := by
  rfl

/-- C3: the claim states the dense-pack invariant: after any precondition-
respecting sequence of inserts/removes the occupied slots are exactly
`[0, size)`, the two maps are mutually inverse over them, and `get(e)`
returns the value most recently inserted for `e`.  The sequence
insert `(0,10) (1,20) (2,30)`, remove `1`, insert `(3,40)` respects every
precondition yet breaks the invariant: after the removal the store has
`size = 2` but `entityToIndex` maps entity `2` to slot `2 ∉ [0, 2)` while
`indexToEntity` has no entry for slot `2` (so the maps are not mutually
inverse), and after the subsequent insert `get(2)` returns `40` although the
value most recently inserted for entity `2` is `30`. -/
theorem densePack_invariant_broken :
    (do
      let a ← arrABC
      let a4 ← a.RemoveData 1
      let a5 ← a4.InsertData 3 40
      .ok (a4.arraySize, mlookup a4.entityToIndex 2, mlookup a4.indexToEntity 2,
           okOf (a5.Get 2))) =
    .ok (2, (some 2 : Option Nat), (none : Option Entity), (some 40 : Option Nat)) := by
  rfl

/-- C4: the claim states that `destroy(entity)` fails with `InvalidEntity`
exactly when the id is outside `[0, MAX_ENTITIES)`.  The code's guard reads
`assert(entityCount < MAX_ENTITIES && "Entity out of range")`: it tests the
live-entity counter, not the id.  With one live entity, destroying the
out-of-range id `2000` succeeds (and in C++ goes on to write
`entitySignatures[2000]`, out of bounds); with `MAX_ENTITIES` live entities,
destroying the in-range id `0` fails.  Both directions of the claimed
equivalence are false. -/
theorem destroyEntity_range_check_wrong :
    errOf ((emAfterCreates 1).DestroyEntity 2000) = none ∧
    MAX_ENTITIES ≤ 2000 ∧
    errOf ((emAfterCreates MAX_ENTITIES).DestroyEntity 0) = some ECSError.InvalidEntity ∧
    0 < MAX_ENTITIES :=
  ⟨rfl, by decide, rfl, by decide⟩

/-- C5 counterexample: the claim states that a system membership entry is
created when the entity's signature is evaluated (via
`evaluate`/`broadcast_evaluate`) and found to match the system's required
signature.  Evaluating entity `0` with signature `1` against a system that
requires exactly signature `1` and manages no entities creates no entry:
`CheckEntity` only removes on mismatch and never adds. -/
theorem checkEntity_never_creates_membership :
    ¬ (0 ∈ (System.CheckEntity
        { managedEntities := [], systemSignature := 1 } 0 1).managedEntities) := by
  decide

/-- C5 amended: membership entries are created only by `register_entity`
(which appends the entity when the given signature exactly equals the
system's required signature); `evaluate` never creates an entry — on a match
it leaves the system unchanged, and on a mismatch it invokes the removal
routine, which applies the `std::remove` shift to the managed list without
shrinking it (the list length is preserved, so the entity is not reliably
removed).  Entity destruction broadcasts the same removal routine. -/
theorem membership_created_only_by_register (s : System) (entity : Entity)
    (sig : Signature) :
    (sig = s.systemSignature → s.CheckEntity entity sig = s) ∧
    (sig ≠ s.systemSignature →
      s.CheckEntity entity sig =
        { s with managedEntities := stdRemove s.managedEntities entity }) ∧
    (stdRemove s.managedEntities entity).length = s.managedEntities.length ∧
    (sig = s.systemSignature →
      s.RegisterEntityToSystem entity sig =
        .ok { s with managedEntities := s.managedEntities ++ [entity] }) := by
  refine ⟨fun h => ?_, fun h => ?_, stdRemove_length _ _, fun h => ?_⟩
  · simp [System.CheckEntity, h]
  · simp [System.CheckEntity, System.RemoveEntity, h]
  · simp [System.RegisterEntityToSystem, h]

/-- C5 amended, witness: a system requiring signature `1` and managing
exactly `[3]`, evaluated for entity `3` with the non-matching signature `0`,
runs the removal routine, and the shifted list is `[3]` again — the entry
survives. -/
theorem membership_created_only_by_register_witness :
    System.CheckEntity { managedEntities := [3], systemSignature := 1 } 3 0 =
      { managedEntities := stdRemove [3] 3, systemSignature := 1 } :=
  (membership_created_only_by_register
    { managedEntities := [3], systemSignature := 1 } 3 0).2.1 (by decide)

/-- C6 counterexample: the claim states that registering the same component
type twice overwrites the prior store, so previously inserted components are
no longer retrievable.  With the value `7` stored for entity `0` under
component type `0`, a second `RegisterComponent 0` leaves the value
retrievable: `unordered_map::insert` does nothing when the key is present. -/
theorem reregistration_preserves_components :
    okOf ((cmWithData.RegisterComponent 0).GetComponent 0 0) = some 7 := by
  rfl

/-- C6 amended: registering an already-registered component type is a no-op
(`unordered_map::insert` does not replace the mapped store), so the prior
store and all its data are preserved. -/
theorem registerComponent_noop_when_registered {γ : Type} [Inhabited γ]
    (m : ComponentManager γ) (ct : ComponentType)
    (h : (mlookup m.componentArrays ct).isSome = true) :
    m.RegisterComponent ct = m := by
  unfold ComponentManager.RegisterComponent
  cases hl : mlookup m.componentArrays ct with
  | none => rw [hl] at h; simp at h
  | some arr => rfl

/-- C6 amended, witness: re-registering component type `0` on the manager
that already stores the value `7` for entity `0` changes nothing. -/
theorem registerComponent_noop_when_registered_witness :
    cmWithData.RegisterComponent 0 = cmWithData :=
  registerComponent_noop_when_registered cmWithData 0 (by rfl)

/-- C7: for every sequence of create/destroy operations in which destroy is
only ever applied to a live entity (and steps whose asserts fire do not
occur), the ghost list of live ids contains no duplicate — no two
simultaneously live entities share an id — and reading the signature of any
in-range id that is not live (in particular, any destroyed id) returns the
all-zero signature. -/
theorem live_ids_unique_and_destroyed_sig_zero (ops : List EMOp)
    (s : EntityManager) (live : List Entity)
    (h : run ops (EntityManager.init, []) = some (s, live)) :
    live.Nodup ∧ ∀ e, e < MAX_ENTITIES → e ∉ live → s.GetSignature e = .ok 0 := by
  have hInv := emInv_run ops _ _ emInv_init h
  obtain ⟨hperm, hcount, hsig⟩ := hInv
  dsimp only at hperm hcount hsig
  constructor
  · have hall : (live ++ s.freeEntities).Nodup :=
      hperm.nodup_iff.mpr (List.nodup_range _)
    exact hall.of_append_left
  · intro e heMax heNot
    unfold EntityManager.GetSignature
    rw [if_pos heMax, hsig e heNot]

/-- C7 witness: creating entity `0` and destroying it again is a valid
sequence; afterwards no id is live, and the destroyed id `0` reads back the
all-zero signature. -/
theorem live_ids_unique_and_destroyed_sig_zero_witness :
    c7cfg.2.Nodup ∧ EntityManager.GetSignature c7cfg.1 0 = .ok 0 := by
  obtain ⟨h1, h2⟩ := live_ids_unique_and_destroyed_sig_zero
    [EMOp.create, EMOp.destroy 0] c7cfg.1 c7cfg.2 rfl
  exact ⟨h1, h2 0 (by decide) (by decide)⟩

/-- C8: `register_entity(entity, signature)` fails with `SignatureMismatch`
exactly when the given signature differs from the system's required
signature — including when it is a strict superset of it — and otherwise
appends the entity to the managed list. -/
theorem registerEntity_exact_match (s : System) (entity : Entity) (sig : Signature) :
    (s.RegisterEntityToSystem entity sig = .error .SignatureMismatch ↔
      sig ≠ s.systemSignature) ∧
    (sig = s.systemSignature →
      s.RegisterEntityToSystem entity sig =
        .ok { s with managedEntities := s.managedEntities ++ [entity] }) := by
  constructor
  · constructor
    · intro h heq
      rw [heq] at h
      simp [System.RegisterEntityToSystem] at h
    · intro h
      simp [System.RegisterEntityToSystem, h]
  · intro h
    simp [System.RegisterEntityToSystem, h]

/-- C8 witness: a system requiring signature `1` (component `0` only)
rejects entity `7` offered with the strict-superset signature `3` with
`SignatureMismatch`, and appends it when offered the exact signature `1`. -/
theorem registerEntity_exact_match_witness :
    (System.RegisterEntityToSystem { managedEntities := [], systemSignature := 1 } 7 3 =
      .error ECSError.SignatureMismatch) ∧
    System.RegisterEntityToSystem { managedEntities := [], systemSignature := 1 } 7 1 =
      .ok { managedEntities := [7], systemSignature := 1 } :=
  ⟨(registerEntity_exact_match { managedEntities := [], systemSignature := 1 } 7 3).1.mpr
      (by decide),
    (registerEntity_exact_match { managedEntities := [], systemSignature := 1 } 7 1).2 rfl⟩

/-- C9: for a valid entity, a registered component type `ct` and a store not
yet holding the entity, `AddComponent` stores the value (a subsequent
`GetComponent` returns it), sets exactly bit `ct` of the entity's signature
(every other bit, and every other entity's signature, is unchanged) and
leaves the SystemManager — hence every system's managed set — untouched: no
membership re-evaluation is triggered. -/
theorem addComponent_sets_bit_and_skips_systems {γ : Type} (st : ECS γ)
    (ct : ComponentType) (entity : Entity) (v : γ) (arr : ComponentArray γ)
    (hent : entity < MAX_ENTITIES)
    (hreg : mlookup st.componentManager.componentArrays ct = some arr)
    (hfree : mlookup arr.entityToIndex entity = none) :
    ((st.AddComponent ct entity v).bind (fun st2 => st2.GetComponent ct entity)) = .ok v ∧
    ((st.AddComponent ct entity v).map
      (fun st2 => (st2.entityManager.entitySignatures entity).testBit ct)) = .ok true ∧
    (∀ i, i ≠ ct →
      ((st.AddComponent ct entity v).map
        (fun st2 => (st2.entityManager.entitySignatures entity).testBit i)) =
      .ok ((st.entityManager.entitySignatures entity).testBit i)) ∧
    (∀ e2, e2 ≠ entity →
      ((st.AddComponent ct entity v).map
        (fun st2 => st2.entityManager.entitySignatures e2)) =
      .ok (st.entityManager.entitySignatures e2)) ∧
    ((st.AddComponent ct entity v).map (fun st2 => st2.systemManager)) =
      .ok st.systemManager := by
  have hadd : st.AddComponent ct entity v = .ok
      { st with
        componentManager :=
          { componentArrays := mset st.componentManager.componentArrays ct
              { arr with
                entityToIndex := mset arr.entityToIndex entity arr.arraySize
                indexToEntity := mset arr.indexToEntity arr.arraySize entity
                components := fun i => if i = arr.arraySize then v else arr.components i
                arraySize := arr.arraySize + 1 } }
        entityManager :=
          { st.entityManager with
            entitySignatures := fun e =>
              if e = entity then
                sigSet (st.entityManager.entitySignatures entity) ct true
              else st.entityManager.entitySignatures e } } := by
    unfold ECS.ECS.AddComponent ComponentManager.AddComponent ComponentArray.InsertData
    rw [hreg]
    dsimp only
    rw [hfree]
    unfold EntityManager.GetSignature EntityManager.SetSignature
    simp only [if_pos hent]
    rfl
  refine ⟨?_, ?_, ?_, ?_, ?_⟩
  · rw [hadd]
    show ECS.ECS.GetComponent _ ct entity = .ok v
    unfold ECS.ECS.GetComponent ComponentManager.GetComponent ComponentArray.Get
    simp only [mlookup_mset_self]
    simp
  · rw [hadd]
    simp only [Except.map]
    simp [sigSet, Nat.testBit_lor, Nat.testBit_two_pow_self]
  · intro i hi
    rw [hadd]
    simp only [Except.map]
    simp [sigSet, Nat.testBit_lor, Nat.testBit_two_pow_of_ne (fun h => hi h.symm)]
  · intro e2 he2
    rw [hadd]
    simp only [Except.map]
    simp [if_neg he2]
  · rw [hadd]
    rfl

/-- C9 witness: on the coordinator state with component type `0` registered
and entity `0` live and component-free, adding the value `42` stores it and
leaves the SystemManager unchanged. -/
theorem addComponent_sets_bit_and_skips_systems_witness :
    ((ecs0.AddComponent 0 0 42).bind (fun st2 => st2.GetComponent 0 0)) = .ok 42 ∧
    ((ecs0.AddComponent 0 0 42).map (fun st2 => st2.systemManager)) =
      .ok ecs0.systemManager := by
  obtain ⟨h1, _, _, _, h5⟩ := addComponent_sets_bit_and_skips_systems ecs0 0 0 42
    (ComponentArray.init 0) (by decide) rfl rfl
  exact ⟨h1, h5⟩

/-- C10: `EntityManager::DestroyEntity` performs no liveness check — it
pushes the id and decrements the counter unconditionally — so the sequence
that creates ids `0` and `1`, destroys the never-created (hence free) id `5`
twice, and then drains the queue, reaches two `CreateEntity` calls that both
return id `5`.  No destroy follows them, so two simultaneously live entities
share the id (together with the earlier creation of `5` during the drain,
three do). -/
theorem double_destroy_duplicates_live_id :
    doubleDestroyChain = .ok (5, 5) := by
  rfl

end ECS


